import Mathlib

/-!
Shallow embedding of `region.py` (classifier-forest): the `Rectangle` and
`Region` value types, their geometry operations (edge setters, `crop`),
buffer-bound computations (`calculate_mass`, `calculate_variance`),
serialization (`to_array`, `region_from_array`, `region_from_json`), the
border flag (`set_is_along_border`) and the tracking distance metric
(`average_distance`, `eucl_distance`).

Numeric coordinates ("integer or float depending on caller") are modelled as
rationals; Python `int()` truncation toward zero is `truncQ`; numpy
`np.uint16` conversion is `u16` (truncate, then reduce mod 2^16); a numpy 2D
buffer is a list of rows with `shape = (rows, cols)`; Python `None` becomes
`Option.none`; the `assert` statements in the buffer-bound methods are
modelled by returning `Option.none` on failure; in-place mutation is modelled
by returning the updated value.
-/

namespace RegionModel

/-- Python `int()` applied to a rational: truncation toward zero. -/
def truncQ (q : ℚ) : ℤ := if 0 ≤ q then ⌊q⌋ else -⌊-q⌋

/-- numpy `np.uint16` conversion of a numeric value: truncate toward zero,
then wrap modulo 2^16. -/
def u16 (q : ℚ) : ℤ := truncQ q % 65536

/-- Class `Rectangle`: "Defines a rectangle by the topleft point and width / height."
(attrs: `x`, `y`, `width`, `height`). -/
structure Rectangle where
  x : ℚ
  y : ℚ
  width : ℚ
  height : ℚ
deriving DecidableEq

namespace Rectangle

/-- property `left`: `self.x`. -/
def left (r : Rectangle) : ℚ := r.x

/-- property `top`: `self.y`. -/
def top (r : Rectangle) : ℚ := r.y

/-- property `right`: `self.x + self.width`. -/
def right (r : Rectangle) : ℚ := r.x + r.width

/-- property `bottom`: `self.y + self.height`. -/
def bottom (r : Rectangle) : ℚ := r.y + r.height

/-- property `mid_x`: `self.x + self.width / 2`. -/
def mid_x (r : Rectangle) : ℚ := r.x + r.width / 2

/-- property `mid_y`: `self.y + self.height / 2`. -/
def mid_y (r : Rectangle) : ℚ := r.y + r.height / 2

/-- Setter for `right`: `self.width = value - self.x`. -/
def set_right (r : Rectangle) (value : ℚ) : Rectangle :=
  { r with width := value - r.x }

/-- Setter for `bottom`: `self.height = value - self.y`. -/
def set_bottom (r : Rectangle) (value : ℚ) : Rectangle :=
  { r with height := value - r.y }

/-- Setter for `left`: `old_right = self.right; self.x = value; self.right = old_right`. -/
def set_left (r : Rectangle) (value : ℚ) : Rectangle :=
  let old_right := r.right
  Rectangle.set_right { r with x := value } old_right

/-- Setter for `top`: `old_bottom = self.bottom; self.y = value; self.bottom = old_bottom`. -/
def set_top (r : Rectangle) (value : ℚ) : Rectangle :=
  let old_bottom := r.bottom
  Rectangle.set_bottom { r with y := value } old_bottom

/-- Method `crop(bounds)`: "Crops this rectangle so that it fits within given bounds";
four successive property assignments through the edge setters. -/
def crop (r bounds : Rectangle) : Rectangle :=
  let r1 := r.set_left (min bounds.right (max r.left bounds.left))
  let r2 := r1.set_top (min bounds.bottom (max r1.top bounds.top))
  let r3 := r2.set_right (max bounds.left (min r2.right bounds.right))
  r3.set_bottom (max bounds.top (min r3.bottom bounds.bottom))

end Rectangle

/-- A numpy 2D buffer, as a list of rows of rational pixel values. -/
abbrev Buffer := List (List ℚ)

/-- numpy `.shape` of a 2D buffer: `(number of rows, number of columns)`;
for the rectangular buffers of interest every row has the length of the
first one. -/
def shape (b : Buffer) : ℕ × ℕ := (b.length, (b.headD []).length)

namespace tools

/-- Modelled from the spec: the repository's `tools.calculate_mass` is not
under `src/` (`region.py` references `tools` without importing it); the spec
says `calculate_mass` "counts pixels in `buffer` exceeding `threshold`",
which we take as the number of entries strictly greater than the threshold. -/
def calculate_mass (filtered : Buffer) (threshold : ℚ) : ℚ :=
  ((filtered.flatten.filter (fun p => threshold < p)).length : ℚ)

end tools

/-- module-level `eucl_distance(first, second)`: squared Euclidean distance of
two 2D points, squaring by elementwise multiplication. -/
def eucl_distance (first second : ℚ × ℚ) : ℚ :=
  let first_sq := (first.1 - second.1) * (first.1 - second.1)
  let second_sq := (first.2 - second.2) * (first.2 - second.2)
  first_sq + second_sq

/-- numpy `np.abs` on one entry. -/
def absQ (q : ℚ) : ℚ := if q < 0 then -q else q

/-- numpy `np.var` of the flattened values: mean of squared deviations from
the mean. -/
def varQ (xs : List ℚ) : ℚ :=
  let n : ℚ := (xs.length : ℚ)
  let m : ℚ := xs.sum / n
  (xs.map (fun v => (v - m) * (v - m))).sum / n

/-- Elementwise `np.abs(filtered - prev_filtered)` on 2D buffers. -/
def absDiff (a b : Buffer) : Buffer :=
  List.zipWith (fun ra rb => List.zipWith (fun u v => absQ (u - v)) ra rb) a b

/-- module-level `calculate_variance(filtered, prev_filtered)`: returns `None`
when `prev_filtered is None`, otherwise `np.var(np.abs(filtered - prev_filtered))`. -/
def calculate_variance (filtered : Buffer) (prev_filtered : Option Buffer) : Option ℚ :=
  match prev_filtered with
  | none => none
  | some p => some (varQ ((absDiff filtered p).flatten))

/-- Class `Region(Rectangle)`: "Region is a rectangle extended to support mass";
attrs defaults `mass=0`, `frame_number=0`, `pixel_variance=0`, `id=0`,
`was_cropped=False`, `blank=False`, `is_along_border=False`. `frame_number`
and `pixel_variance` can be set to `None` elsewhere, so they are optional
with a present default. -/
structure Region extends Rectangle where
  mass : ℚ := 0
  frame_number : Option ℚ := some 0
  pixel_variance : Option ℚ := some 0
  id : ℚ := 0
  was_cropped : Bool := false
  blank : Bool := false
  is_along_border : Bool := false
deriving DecidableEq

namespace Region

/-- Direct construction `Region(x, y, width, height)` with every other
attribute left at its attrs default. -/
def make (x y width height : ℚ) : Region :=
  { x := x, y := y, width := width, height := height }

/-- Method `calculate_mass(filtered, threshold)`: `height, width = filtered.shape`,
assert `width == self.width and height == self.height` (modelled as `none` on
failure), then `self.mass = tools.calculate_mass(filtered, threshold)`.
The source places this method on `Rectangle`, but it reads and writes the
`mass` attribute, so it is modelled on `Region`. -/
def calculate_mass (r : Region) (filtered : Buffer) (threshold : ℚ) : Option Region :=
  if ((shape filtered).2 : ℚ) = r.width ∧ ((shape filtered).1 : ℚ) = r.height then
    some { r with mass := tools.calculate_mass filtered threshold }
  else none

/-- Method `Region.calculate_variance(filtered, prev_filtered)`: same shape assert,
then `self.pixel_variance = calculate_variance(filtered, prev_filtered)`
(the module-level function). -/
def calculate_variance (r : Region) (filtered : Buffer) (prev_filtered : Option Buffer) :
    Option Region :=
  if ((shape filtered).2 : ℚ) = r.width ∧ ((shape filtered).1 : ℚ) = r.height then
    some { r with pixel_variance := RegionModel.calculate_variance filtered prev_filtered }
  else none

/-- Method `set_is_along_border(bounds, edge=0)`: disjunction of `was_cropped` and
the four edge-proximity comparisons, stored in `is_along_border`. -/
def set_is_along_border (r : Region) (bounds : Rectangle) (edge : ℚ := 0) : Region :=
  { r with is_along_border :=
      r.was_cropped
        || decide (r.x ≤ bounds.x + edge)
        || decide (r.y ≤ bounds.y + edge)
        || decide (r.toRectangle.right ≥ bounds.width - edge)
        || decide (r.toRectangle.bottom ≥ bounds.height - edge) }

/-- Method `to_array()`: `np.uint16([left, top, right, bottom, frame_number, mass,
1 if blank else 0])`. When `frame_number` is `None`, the numpy conversion
raises, modelled as `none`. -/
def to_array (r : Region) : Option (List ℤ) :=
  r.frame_number.map (fun fn =>
    ([r.toRectangle.left, r.toRectangle.top, r.toRectangle.right, r.toRectangle.bottom,
      fn, r.mass, if r.blank then 1 else 0] : List ℚ).map u16)

/-- Method `region_from_array(region_bounds)`: decodes
`[left, top, right, bottom, frame_number?, mass?, blank?]`; `width`/`height`
are recomputed differences; a present `frame_number` passes through
`np.uint16`; fewer than four entries would raise an index error, modelled as
`none`. -/
def region_from_array (region_bounds : List ℤ) : Option Region :=
  match region_bounds with
  | a0 :: a1 :: a2 :: a3 :: rest =>
    let width : ℤ := a2 - a0
    let height : ℤ := a3 - a1
    let frame_number : Option ℤ := rest.head?
    let mass : ℤ := (rest.drop 1).headD 0
    let blank : Bool := (((rest.drop 2).head?).map (fun v => v == 1)).getD false
    some { x := (a0 : ℚ), y := (a1 : ℚ), width := (width : ℚ), height := (height : ℚ),
           frame_number := frame_number.map (fun f => ((f % 65536 : ℤ) : ℚ)),
           mass := (mass : ℚ), blank := blank }
  | _ => none

end Region

/-- A JSON mapping as consumed by `region_from_json`: the required keys
`x, y, width, height` and the optional keys, each `none` when absent
(a Python dict binds each key at most once, so optional fields model
`dict.get`). -/
structure RegionJson where
  x : ℚ
  y : ℚ
  width : ℚ
  height : ℚ
  frame_number : Option ℚ := none
  frameNumber : Option ℚ := none
  order : Option ℚ := none
  mass : Option ℚ := none
  blank : Option Bool := none
  pixel_variance : Option ℚ := none

/-- Method `region_from_json(region_json)`: frame number resolved by
`get("frame_number")`, then `get("frameNumber")`, then `get("order")`;
`mass`, `blank`, `pixel_variance` via `get` with defaults `0`, `False`, `0`. -/
def Region.region_from_json (region_json : RegionJson) : Region :=
  let frame := (region_json.frame_number <|> region_json.frameNumber) <|> region_json.order
  { x := region_json.x, y := region_json.y,
    width := region_json.width, height := region_json.height,
    frame_number := frame,
    mass := region_json.mass.getD 0,
    blank := region_json.blank.getD false,
    pixel_variance := some (region_json.pixel_variance.getD 0) }

/-- Method `Region.average_distance(other)`: three squared-distance terms — truncated
top-left of `other` vs. this top-left, truncated midpoint of `other` vs. this
midpoint (no truncation on `self`), and bottom-right vs. bottom-right
(no truncation at all). -/
def Region.average_distance (self other : Region) : List ℚ :=
  let d0 := eucl_distance (((truncQ other.x : ℤ) : ℚ), ((truncQ other.y : ℤ) : ℚ))
    (self.x, self.y)
  let d1 := eucl_distance
    (((truncQ other.toRectangle.mid_x : ℤ) : ℚ), ((truncQ other.toRectangle.mid_y : ℤ) : ℚ))
    (self.toRectangle.mid_x, self.toRectangle.mid_y)
  let d2 := eucl_distance (other.toRectangle.right, other.toRectangle.bottom)
    (self.toRectangle.right, self.toRectangle.bottom)
  [d0, d1, d2]

end RegionModel

namespace RegionModel

lemma truncQ_intCast (n : ℤ) : truncQ (n : ℚ) = n := by
  unfold truncQ
  split
  · exact Int.floor_intCast n
  · rw [← Int.cast_neg, Int.floor_intCast]
    ring

lemma truncQ_nonneg {q : ℚ} (h : 0 ≤ q) : 0 ≤ truncQ q := by
  unfold truncQ
  rw [if_pos h]
  exact Int.floor_nonneg.mpr h

lemma truncQ_le_intCast {q : ℚ} {n : ℤ} (h0 : 0 ≤ q) (h : q ≤ (n : ℚ)) : truncQ q ≤ n := by
  unfold truncQ
  rw [if_pos h0]
  calc ⌊q⌋ ≤ ⌊(n : ℚ)⌋ := Int.floor_le_floor h
    _ = n := Int.floor_intCast n

lemma u16_eq_truncQ {q : ℚ} (h0 : 0 ≤ q) (h : q ≤ 65535) : u16 q = truncQ q := by
  have hle : truncQ q ≤ 65535 := truncQ_le_intCast h0 (by exact_mod_cast h)
  have hnn : 0 ≤ truncQ q := truncQ_nonneg h0
  unfold u16
  exact Int.emod_eq_of_lt hnn (by omega)

lemma u16_intCast {n : ℤ} (h0 : 0 ≤ n) (h : n ≤ 65535) : u16 ((n : ℚ)) = n := by
  rw [u16, truncQ_intCast]
  exact Int.emod_eq_of_lt h0 (by omega)

lemma crop_def (r b : Rectangle) :
    r.crop b = { x := min b.right (max r.left b.left),
                 y := min b.bottom (max r.top b.top),
                 width := max b.left (min r.right b.right) - min b.right (max r.left b.left),
                 height := max b.top (min r.bottom b.bottom) - min b.bottom (max r.top b.top) } := by
  simp only [Rectangle.crop, Rectangle.set_left, Rectangle.set_top, Rectangle.set_right,
    Rectangle.set_bottom, Rectangle.left, Rectangle.top, Rectangle.right, Rectangle.bottom]
  congr 1 <;> ring_nf

lemma crop_left (r b : Rectangle) :
    (r.crop b).left = min b.right (max r.left b.left) := by
  rw [crop_def]
  rfl

lemma crop_top (r b : Rectangle) :
    (r.crop b).top = min b.bottom (max r.top b.top) := by
  rw [crop_def]
  rfl

lemma crop_right (r b : Rectangle) :
    (r.crop b).right = max b.left (min r.right b.right) := by
  rw [crop_def]
  simp only [Rectangle.right]
  ring

lemma crop_bottom (r b : Rectangle) :
    (r.crop b).bottom = max b.top (min r.bottom b.bottom) := by
  rw [crop_def]
  simp only [Rectangle.bottom]
  ring

lemma clamp_lower (l bl br : ℚ) :
    min br (max (min br (max l bl)) bl) = min br (max l bl) := by
  simp only [min_def, max_def]
  split_ifs <;> linarith

lemma clamp_upper (rr bl br : ℚ) :
    max bl (min (max bl (min rr br)) br) = max bl (min rr br) := by
  simp only [min_def, max_def]
  split_ifs <;> linarith

/-- C6: `crop(bounds)` clamps each edge via
`left = min(bounds.right, max(left, bounds.left))` and the symmetric rule for
`top`, `right` and `bottom` (the last two clamps reading this rectangle's
original edges), and `crop` is idempotent: cropping twice to the same bounds
equals cropping once. -/
theorem crop_clamps_and_idempotent (r bounds : Rectangle) :
    ((r.crop bounds).left = min bounds.right (max r.left bounds.left)
      ∧ (r.crop bounds).top = min bounds.bottom (max r.top bounds.top)
      ∧ (r.crop bounds).right = max bounds.left (min r.right bounds.right)
      ∧ (r.crop bounds).bottom = max bounds.top (min r.bottom bounds.bottom))
    ∧ (r.crop bounds).crop bounds = r.crop bounds := by
  refine ⟨⟨crop_left r bounds, crop_top r bounds, crop_right r bounds, crop_bottom r bounds⟩, ?_⟩
  rw [crop_def (r.crop bounds) bounds, crop_left, crop_top, crop_right, crop_bottom,
    crop_def r bounds]
  simp only [Rectangle.mk.injEq]
  refine ⟨clamp_lower _ _ _, clamp_lower _ _ _, ?_, ?_⟩
  · rw [clamp_lower, clamp_upper]
  · rw [clamp_lower, clamp_upper]

/-- C9: for a non-degenerate rectangle cropped to non-degenerate bounds, the
resulting edges all lie inside the bounds and the rectangle stays
non-degenerate. -/
theorem crop_preserves_invariants (r bounds : Rectangle)
    (h1 : r.left ≤ r.right) (h2 : r.top ≤ r.bottom)
    (h3 : bounds.left ≤ bounds.right) (h4 : bounds.top ≤ bounds.bottom) :
    (bounds.left ≤ (r.crop bounds).left ∧ (r.crop bounds).left ≤ bounds.right)
    ∧ (bounds.left ≤ (r.crop bounds).right ∧ (r.crop bounds).right ≤ bounds.right)
    ∧ (bounds.top ≤ (r.crop bounds).top ∧ (r.crop bounds).top ≤ bounds.bottom)
    ∧ (bounds.top ≤ (r.crop bounds).bottom ∧ (r.crop bounds).bottom ≤ bounds.bottom)
    ∧ (r.crop bounds).left ≤ (r.crop bounds).right
    ∧ (r.crop bounds).top ≤ (r.crop bounds).bottom := by
  rw [crop_left, crop_right, crop_top, crop_bottom]
  refine ⟨⟨?_, ?_⟩, ⟨?_, ?_⟩, ⟨?_, ?_⟩, ⟨?_, ?_⟩, ?_, ?_⟩ <;>
    simp only [min_def, max_def] <;> split_ifs <;> linarith

/-- Witness for C9 at `r = (0,0,5,5)`, `bounds = (1,1,2,2)`. -/
theorem crop_preserves_invariants_witness :
    let r : Rectangle := ⟨0, 0, 5, 5⟩
    let bounds : Rectangle := ⟨1, 1, 2, 2⟩
    (bounds.left ≤ (r.crop bounds).left ∧ (r.crop bounds).left ≤ bounds.right)
    ∧ (bounds.left ≤ (r.crop bounds).right ∧ (r.crop bounds).right ≤ bounds.right)
    ∧ (bounds.top ≤ (r.crop bounds).top ∧ (r.crop bounds).top ≤ bounds.bottom)
    ∧ (bounds.top ≤ (r.crop bounds).bottom ∧ (r.crop bounds).bottom ≤ bounds.bottom)
    ∧ (r.crop bounds).left ≤ (r.crop bounds).right
    ∧ (r.crop bounds).top ≤ (r.crop bounds).bottom :=
  crop_preserves_invariants ⟨0, 0, 5, 5⟩ ⟨1, 1, 2, 2⟩
    (by norm_num [Rectangle.left, Rectangle.right])
    (by norm_num [Rectangle.top, Rectangle.bottom])
    (by norm_num [Rectangle.left, Rectangle.right])
    (by norm_num [Rectangle.top, Rectangle.bottom])

/-- C7: each edge setter holds the opposite edge fixed (and moves the set
edge to the requested value): `set_left` preserves `right`, `set_right`
preserves `left`, `set_top` preserves `bottom`, `set_bottom` preserves `top`. -/
theorem setters_preserve_opposite_edge (r : Rectangle) (v : ℚ) :
    ((r.set_left v).right = r.right ∧ (r.set_left v).left = v)
    ∧ ((r.set_right v).left = r.left ∧ (r.set_right v).right = v)
    ∧ ((r.set_top v).bottom = r.bottom ∧ (r.set_top v).top = v)
    ∧ ((r.set_bottom v).top = r.top ∧ (r.set_bottom v).bottom = v) := by
  refine ⟨⟨?_, ?_⟩, ⟨?_, ?_⟩, ⟨?_, ?_⟩, ⟨?_, ?_⟩⟩ <;>
    simp only [Rectangle.set_left, Rectangle.set_right, Rectangle.set_top, Rectangle.set_bottom,
      Rectangle.left, Rectangle.right, Rectangle.top, Rectangle.bottom] <;> ring

/-- C8: `set_is_along_border(bounds, edge)` stores the disjunction of
`was_cropped` and the four edge-proximity tests; the interior region
`(5,5,2,2)` in a 10 by 10 frame is not along the border, while any region
with `was_cropped` set is, regardless of position. -/
theorem set_is_along_border_spec :
    (∀ (r : Region) (bounds : Rectangle) (edge : ℚ),
      (r.set_is_along_border bounds edge).is_along_border =
        (r.was_cropped
          || decide (r.x ≤ bounds.x + edge)
          || decide (r.y ≤ bounds.y + edge)
          || decide (r.toRectangle.right ≥ bounds.width - edge)
          || decide (r.toRectangle.bottom ≥ bounds.height - edge)))
    ∧ ((Region.make 5 5 2 2).set_is_along_border ⟨0, 0, 10, 10⟩ 0).is_along_border = false
    ∧ (∀ x y w h : ℚ,
        ({ Region.make x y w h with was_cropped := true }.set_is_along_border
          ⟨0, 0, 10, 10⟩ 0).is_along_border = true) := by
  refine ⟨fun r bounds edge => rfl, ?_, fun x y w h => ?_⟩
  · simp only [Region.set_is_along_border, Region.make, Rectangle.right, Rectangle.bottom]
    norm_num
  · simp [Region.set_is_along_border, Region.make]

/-- C10: a directly constructed Region defaults `frame_number` to `0`
(present), while `region_from_array` on a four-element array leaves
`frame_number` absent — the two construction paths use different defaults. -/
theorem frame_number_construction_defaults :
    (∀ x y w h : ℚ, (Region.make x y w h).frame_number = some 0)
    ∧ (∀ a0 a1 a2 a3 : ℤ,
        (Region.region_from_array [a0, a1, a2, a3]).map Region.frame_number = some none) :=
  ⟨fun _ _ _ _ => rfl, fun _ _ _ _ => rfl⟩

end RegionModel

namespace RegionModel

/-- C1: `calculate_mass(buffer, threshold)` fails when the buffer's shape
differs from `(height, width)` of the region, and on an exact match stores
the count of pixels strictly exceeding the threshold in `mass`. -/
theorem calculate_mass_spec (r : Region) (b : Buffer) (t : ℚ) :
    (¬ (((shape b).1 : ℚ) = r.height ∧ ((shape b).2 : ℚ) = r.width) →
      Region.calculate_mass r b t = none)
    ∧ ((((shape b).1 : ℚ) = r.height ∧ ((shape b).2 : ℚ) = r.width) →
      Region.calculate_mass r b t =
        some { r with mass := ((b.flatten.filter (fun p => t < p)).length : ℚ) }) := by
  constructor
  · intro h
    rw [Region.calculate_mass, if_neg (by tauto)]
  · intro h
    rw [Region.calculate_mass, if_pos ⟨h.2, h.1⟩]
    rfl

/-- Witness for C1: a (5,11) buffer fails against a width-10, height-5
region, and a matching (1,2) buffer with one pixel above threshold 2 gives
mass 1. -/
theorem calculate_mass_spec_witness :
    Region.calculate_mass (Region.make 0 0 10 5) (List.replicate 5 (List.replicate 11 0)) 0 = none
    ∧ Region.calculate_mass (Region.make 0 0 2 1) [[1, 3]] 2 =
        some { Region.make 0 0 2 1 with mass := 1 } := by
  constructor
  · refine (calculate_mass_spec _ _ _).1 ?_
    intro hc
    have h2 := hc.2
    rw [show (shape (List.replicate 5 (List.replicate 11 (0 : ℚ)))).2 = 11 from rfl] at h2
    norm_num [Region.make] at h2
  · have h := (calculate_mass_spec (Region.make 0 0 2 1) [[1, 3]] 2).2
      (by constructor <;> norm_num [shape, Region.make])
    rw [h]
    norm_num [List.filter]

/-- C2 counterexample: with `prev_buffer` absent, `calculate_variance` does
NOT leave `pixel_variance` unchanged — on a fresh region (prior value
`some 0`) it stores `none`. -/
theorem calculate_variance_missing_prev_not_noop :
    (Region.calculate_variance (Region.make 0 0 1 1) [[0]] none).map Region.pixel_variance
      ≠ some (Region.make 0 0 1 1).pixel_variance := by
  have h : Region.calculate_variance (Region.make 0 0 1 1) [[0]] none =
      some { Region.make 0 0 1 1 with pixel_variance := none } := by
    rw [Region.calculate_variance, if_pos (by constructor <;> norm_num [shape, Region.make])]
    rfl
  rw [h]
  simp [Region.make]

/-- C2 (amended): calling `calculate_variance` with a correctly shaped buffer
and `prev_buffer` absent sets `pixel_variance` to `None` (clearing any prior
value); it leaves `pixel_variance` unchanged only when it was already `None`. -/
theorem calculate_variance_missing_prev_clears (r : Region) (b : Buffer)
    (h : ((shape b).2 : ℚ) = r.width ∧ ((shape b).1 : ℚ) = r.height) :
    Region.calculate_variance r b none = some { r with pixel_variance := none } := by
  rw [Region.calculate_variance, if_pos h]
  rfl

/-- Witness for the amended C2 at a concrete 1 by 1 region and buffer. -/
theorem calculate_variance_missing_prev_clears_witness :
    Region.calculate_variance (Region.make 0 0 1 1) [[0]] none =
      some { Region.make 0 0 1 1 with pixel_variance := none } :=
  calculate_variance_missing_prev_clears _ _
    (by constructor <;> norm_num [shape, Region.make])

/-- C5: `region_from_json` resolves `frame_number` by trying `frame_number`,
`frameNumber`, `order` in that order (first present wins, else absent), and
`mass`, `blank`, `pixel_variance` default to 0, False, 0 when absent. -/
theorem region_from_json_spec (j : RegionJson) :
    ((Region.region_from_json j).frame_number =
      match j.frame_number with
      | some f => some f
      | none =>
        match j.frameNumber with
        | some f => some f
        | none => j.order)
    ∧ (j.mass = none → (Region.region_from_json j).mass = 0)
    ∧ (j.blank = none → (Region.region_from_json j).blank = false)
    ∧ (j.pixel_variance = none → (Region.region_from_json j).pixel_variance = some 0) := by
  refine ⟨?_, fun h => ?_, fun h => ?_, fun h => ?_⟩
  · rcases hf : j.frame_number with _ | f <;> rcases hg : j.frameNumber with _ | g <;>
      simp [Region.region_from_json, hf, hg]
  · simp [Region.region_from_json, h]
  · simp [Region.region_from_json, h]
  · simp [Region.region_from_json, h]

/-- A concrete JSON record: `frame_number` absent, `frameNumber = 7`,
`order = 9`, and `mass`, `blank`, `pixel_variance` absent. -/
def j5 : RegionJson :=
  { x := 1, y := 2, width := 3, height := 4, frameNumber := some 7, order := some 9 }

/-- Witness for C5: on `j5` the second alias wins and the defaults apply. -/
theorem region_from_json_spec_witness :
    (Region.region_from_json j5).frame_number = some 7
    ∧ (Region.region_from_json j5).mass = 0
    ∧ (Region.region_from_json j5).blank = false
    ∧ (Region.region_from_json j5).pixel_variance = some 0 := by
  obtain ⟨h1, h2, h3, h4⟩ := region_from_json_spec j5
  exact ⟨h1.trans rfl, h2 rfl, h3 rfl, h4 rfl⟩

end RegionModel

namespace RegionModel

lemma u16_zero : u16 0 = 0 := by
  rw [u16, truncQ, if_pos le_rfl]
  norm_num

lemma u16_one : u16 1 = 1 := by
  rw [u16, truncQ, if_pos zero_le_one]
  norm_num

/-- C3 counterexample: two regions equal in position and size need not be at
distance `[0, 0, 0]` — a 1 by 1 region at the origin has fractional midpoint
1/2 which the `int()` truncation of the expected midpoint maps to 0, so the
midpoint term is (1/2)^2 + (1/2)^2 = 1/2. -/
theorem average_distance_equal_regions_not_zero :
    Region.average_distance (Region.make 0 0 1 1) (Region.make 0 0 1 1) ≠ [0, 0, 0] := by
  have hf : ⌊(0 + 1 / 2 : ℚ)⌋ = 0 := by
    rw [Int.floor_eq_iff]
    norm_num
  have ht0 : truncQ 0 = 0 := by
    rw [truncQ, if_pos le_rfl]
    norm_num
  have htm : truncQ (0 + 1 / 2 : ℚ) = 0 := by
    rw [truncQ, if_pos (by norm_num), hf]
  have hval : Region.average_distance (Region.make 0 0 1 1) (Region.make 0 0 1 1) =
      [0, 1 / 2, 0] := by
    simp only [Region.average_distance, eucl_distance, Region.make, Rectangle.mid_x,
      Rectangle.mid_y, Rectangle.right, Rectangle.bottom, ht0, htm]
    norm_num
  rw [hval]
  intro hc
  have := List.head_eq_of_cons_eq (List.tail_eq_of_cons_eq hc)
  norm_num at this

/-- C3 (amended): `average_distance` is deterministic (recomputation yields
identical results), and returns `[0, 0, 0]` for regions equal in x, y, width
and height PROVIDED the corner and midpoint coordinates are integer-valued
(so the `int()` truncations are exact, e.g. integer coordinates with even
width and height); otherwise the truncated midpoint or corner makes a term
nonzero, as in the counterexample. -/
theorem average_distance_deterministic_and_zero (A B : Region) :
    Region.average_distance A B = Region.average_distance A B
    ∧ (A.x = B.x → A.y = B.y → A.width = B.width → A.height = B.height →
       ((truncQ B.x : ℤ) : ℚ) = B.x → ((truncQ B.y : ℤ) : ℚ) = B.y →
       ((truncQ B.toRectangle.mid_x : ℤ) : ℚ) = B.toRectangle.mid_x →
       ((truncQ B.toRectangle.mid_y : ℤ) : ℚ) = B.toRectangle.mid_y →
       Region.average_distance A B = [0, 0, 0]) := by
  refine ⟨rfl, fun hx hy hw hh tx ty tmx tmy => ?_⟩
  have hmx : A.toRectangle.mid_x = B.toRectangle.mid_x := by
    simp only [Rectangle.mid_x, hx, hw]
  have hmy : A.toRectangle.mid_y = B.toRectangle.mid_y := by
    simp only [Rectangle.mid_y, hy, hh]
  have hr : A.toRectangle.right = B.toRectangle.right := by
    simp only [Rectangle.right, hx, hw]
  have hb : A.toRectangle.bottom = B.toRectangle.bottom := by
    simp only [Rectangle.bottom, hy, hh]
  simp only [Region.average_distance, eucl_distance, hx, hy, hmx, hmy, hr, hb,
    tx, ty, tmx, tmy, sub_self, mul_zero, zero_mul, add_zero, zero_add]

/-- Witness for the amended C3: a 2 by 2 region at the origin compared with
itself is at distance `[0, 0, 0]`. -/
theorem average_distance_zero_witness :
    Region.average_distance (Region.make 0 0 2 2) (Region.make 0 0 2 2) = [0, 0, 0] := by
  have ht0 : ((truncQ (Region.make 0 0 2 2).x : ℤ) : ℚ) = (Region.make 0 0 2 2).x := by
    norm_num [Region.make, truncQ]
  have htm : ((truncQ (Region.make 0 0 2 2).toRectangle.mid_x : ℤ) : ℚ)
      = (Region.make 0 0 2 2).toRectangle.mid_x := by
    norm_num [Region.make, Rectangle.mid_x, truncQ]
  exact (average_distance_deterministic_and_zero _ _).2 rfl rfl rfl rfl ht0 ht0 htm htm

end RegionModel

namespace RegionModel

/-- The concrete region of C4: `Region(x=0, y=0, width=10, height=10)` with
`frame_number=3`, `mass=42`, `blank=False`. -/
def c4r : Region := { Region.make 0 0 10 10 with frame_number := some 3, mass := 42 }

/-- C4: for a Region whose `left, top, right, bottom, frame_number, mass` all
lie in `[0, 65535]`, with `right >= left`, `bottom >= top` and `frame_number`
present, `region_from_array(r.to_array()).to_array() == r.to_array()`; and
the concrete region `c4r` encodes to `[0,0,10,10,3,42,0]`, which decodes back
to width 10, height 10, mass 42, frame number 3, blank `False`. -/
theorem to_array_roundtrip :
    (∀ (r : Region) (fn : ℚ), r.frame_number = some fn →
      0 ≤ r.toRectangle.left → r.toRectangle.left ≤ 65535 →
      0 ≤ r.toRectangle.top → r.toRectangle.top ≤ 65535 →
      0 ≤ r.toRectangle.right → r.toRectangle.right ≤ 65535 →
      0 ≤ r.toRectangle.bottom → r.toRectangle.bottom ≤ 65535 →
      0 ≤ fn → fn ≤ 65535 → 0 ≤ r.mass → r.mass ≤ 65535 →
      r.toRectangle.left ≤ r.toRectangle.right →
      r.toRectangle.top ≤ r.toRectangle.bottom →
      ∃ a r2, Region.to_array r = some a ∧ Region.region_from_array a = some r2
        ∧ Region.to_array r2 = some a)
    ∧ (Region.to_array c4r = some [0, 0, 10, 10, 3, 42, 0]
       ∧ (Region.region_from_array [0, 0, 10, 10, 3, 42, 0]).map
           (fun r2 => (r2.width, r2.height, r2.mass, r2.frame_number, r2.blank))
         = some (10, 10, 42, some 3, false)) := by
  refine ⟨?_, ?_, rfl⟩
  · intro r fn hfn hL0 hL1 hT0 hT1 hR0 hR1 hB0 hB1 hf0 hf1 hm0 hm1 _hLR _hTB
    have bL0 := truncQ_nonneg hL0
    have bL1 : truncQ r.toRectangle.left ≤ 65535 :=
      truncQ_le_intCast hL0 (by exact_mod_cast hL1)
    have bT0 := truncQ_nonneg hT0
    have bT1 : truncQ r.toRectangle.top ≤ 65535 :=
      truncQ_le_intCast hT0 (by exact_mod_cast hT1)
    have bR0 := truncQ_nonneg hR0
    have bR1 : truncQ r.toRectangle.right ≤ 65535 :=
      truncQ_le_intCast hR0 (by exact_mod_cast hR1)
    have bB0 := truncQ_nonneg hB0
    have bB1 : truncQ r.toRectangle.bottom ≤ 65535 :=
      truncQ_le_intCast hB0 (by exact_mod_cast hB1)
    have bf0 := truncQ_nonneg hf0
    have bf1 : truncQ fn ≤ 65535 := truncQ_le_intCast hf0 (by exact_mod_cast hf1)
    have bm0 := truncQ_nonneg hm0
    have bm1 : truncQ r.mass ≤ 65535 := truncQ_le_intCast hm0 (by exact_mod_cast hm1)
    have ebit : u16 (if r.blank then (1 : ℚ) else 0) = (if r.blank then (1 : ℤ) else 0) := by
      cases r.blank <;> simp [u16_zero, u16_one]
    have hmod : truncQ fn % 65536 = truncQ fn := Int.emod_eq_of_lt bf0 (by omega)
    refine ⟨[truncQ r.toRectangle.left, truncQ r.toRectangle.top, truncQ r.toRectangle.right,
        truncQ r.toRectangle.bottom, truncQ fn, truncQ r.mass, if r.blank then 1 else 0],
      { x := ((truncQ r.toRectangle.left : ℤ) : ℚ),
        y := ((truncQ r.toRectangle.top : ℤ) : ℚ),
        width := ((truncQ r.toRectangle.right - truncQ r.toRectangle.left : ℤ) : ℚ),
        height := ((truncQ r.toRectangle.bottom - truncQ r.toRectangle.top : ℤ) : ℚ),
        frame_number := some ((truncQ fn % 65536 : ℤ) : ℚ),
        mass := ((truncQ r.mass : ℤ) : ℚ),
        blank := ((if r.blank then (1 : ℤ) else 0) == 1) }, ?_, ?_, ?_⟩
    · rw [Region.to_array, hfn]
      simp only [Option.map_some', List.map_cons, List.map_nil, Option.some.injEq,
        List.cons.injEq]
      exact ⟨u16_eq_truncQ hL0 hL1, u16_eq_truncQ hT0 hT1, u16_eq_truncQ hR0 hR1,
        u16_eq_truncQ hB0 hB1, u16_eq_truncQ hf0 hf1, u16_eq_truncQ hm0 hm1, ebit, trivial⟩
    · rfl
    · have hrr : ((truncQ r.toRectangle.x : ℤ) : ℚ)
          + ((truncQ (r.toRectangle.x + r.toRectangle.width) - truncQ r.toRectangle.x : ℤ) : ℚ)
          = ((truncQ (r.toRectangle.x + r.toRectangle.width) : ℤ) : ℚ) := by
        push_cast
        ring
      have hbb : ((truncQ r.toRectangle.y : ℤ) : ℚ)
          + ((truncQ (r.toRectangle.y + r.toRectangle.height) - truncQ r.toRectangle.y : ℤ) : ℚ)
          = ((truncQ (r.toRectangle.y + r.toRectangle.height) : ℤ) : ℚ) := by
        push_cast
        ring
      have ebit2 : u16 (if ((if r.blank then (1 : ℤ) else 0) == 1) then (1 : ℚ) else 0)
          = (if r.blank then (1 : ℤ) else 0) := by
        cases r.blank <;> simp [u16_zero, u16_one]
      rw [Region.to_array]
      simp only [Option.map_some', List.map_cons, List.map_nil, Option.some.injEq,
        List.cons.injEq, Rectangle.left, Rectangle.top, Rectangle.right, Rectangle.bottom,
        hmod, hrr, hbb]
      exact ⟨u16_intCast bL0 bL1, u16_intCast bT0 bT1, u16_intCast bR0 bR1,
        u16_intCast bB0 bB1, u16_intCast bf0 bf1, u16_intCast bm0 bm1, ebit2, trivial⟩
  · simp [c4r, Region.make, Region.to_array, u16, truncQ, Rectangle.left, Rectangle.top,
      Rectangle.right, Rectangle.bottom]

/-- Witness for C4: the round trip instantiated at the concrete region `c4r`,
all range hypotheses discharged numerically. -/
theorem to_array_roundtrip_witness :
    ∃ a r2, Region.to_array c4r = some a ∧ Region.region_from_array a = some r2
      ∧ Region.to_array r2 = some a :=
  to_array_roundtrip.1 c4r 3 rfl
    (by norm_num [c4r, Region.make, Rectangle.left])
    (by norm_num [c4r, Region.make, Rectangle.left])
    (by norm_num [c4r, Region.make, Rectangle.top])
    (by norm_num [c4r, Region.make, Rectangle.top])
    (by norm_num [c4r, Region.make, Rectangle.right])
    (by norm_num [c4r, Region.make, Rectangle.right])
    (by norm_num [c4r, Region.make, Rectangle.bottom])
    (by norm_num [c4r, Region.make, Rectangle.bottom])
    (by norm_num) (by norm_num)
    (by norm_num [c4r, Region.make])
    (by norm_num [c4r, Region.make])
    (by norm_num [c4r, Region.make, Rectangle.left, Rectangle.right])
    (by norm_num [c4r, Region.make, Rectangle.top, Rectangle.bottom])

end RegionModel
